import Mathlib

/-!
Shallow embedding of the weather dashboard component (`WeatherDashboard`):
formatter utilities, the forecast projector `buildForecastPoints`, and the
`fetchWeather` session lifecycle, translated from the JavaScript source.

JavaScript numbers are modelled as `ℚ` (rationals); absent / `undefined` /
non-`number` values are modelled by `Option`.  Fallible request outcomes are
explicit data.  `Math.round` is half-up rounding toward `+∞`; `toFixed`
extracts the sign first and rounds the absolute value half-up, per the
ECMAScript specification.
-/

/-- The unit system passed to the API (the `units` React state is only ever
the string `metric` or the string `imperial`). -/
inductive UnitSystem where
  | metric
  | imperial
  deriving DecidableEq, Repr

/-- `TEMPERATURE_UNIT` lookup table. -/
def temperatureUnit : UnitSystem → String
  | .metric => "°C"
  | .imperial => "°F"

/-- `WIND_UNIT` lookup table. -/
def windUnit : UnitSystem → String
  | .metric => "m/s"
  | .imperial => "mph"

/-- JavaScript `Math.round`: rounds half toward positive infinity. -/
def jsRound (q : ℚ) : ℤ := ⌊q + 1/2⌋

/-- JavaScript `Number.prototype.toFixed(1)`: the sign is extracted first,
then the absolute value is rounded to tenths, half away from zero (the
ECMAScript "pick the larger n" rule applied to the absolute value). -/
def jsToFixed1 (q : ℚ) : String :=
  if q < 0 then
    "-" ++ toString ((jsRound (-q * 10)).toNat / 10) ++ "." ++
      toString ((jsRound (-q * 10)).toNat % 10)
  else
    toString ((jsRound (q * 10)).toNat / 10) ++ "." ++
      toString ((jsRound (q * 10)).toNat % 10)

/-- `formatTemperature(value, units)`: placeholder unless the value is a
number, else `Math.round(value)` followed by the unit glyph. -/
def formatTemperature (value : Option ℚ) (units : UnitSystem) : String :=
  match value with
  | none => "--"
  | some v => toString (jsRound v) ++ temperatureUnit units

/-- `formatWindSpeed(value, units)`: placeholder unless the value is a
number, else `value.toFixed(1)`, a space, and the wind unit label. -/
def formatWindSpeed (value : Option ℚ) (units : UnitSystem) : String :=
  match value with
  | none => "--"
  | some v => jsToFixed1 v ++ " " ++ windUnit units

/-- `formatVisibility(value)`: placeholder unless the value is a number,
else `(value / 1000).toFixed(1)` kilometers. -/
def formatVisibility (value : Option ℚ) : String :=
  match value with
  | none => "--"
  | some v => jsToFixed1 (v / 1000) ++ " km"

/-- Two-digit zero-padded rendering of a field below 100, as produced by the
two-digit options of `toLocaleTimeString` / `Intl.DateTimeFormat`. -/
def pad2 (n : ℕ) : String :=
  if n < 10 then "0" ++ toString n else toString n

/-- Seconds-within-day of an epoch-second instant interpreted in UTC.
`Int.emod` is nonnegative for a positive modulus, matching the calendar
arithmetic of the JavaScript `Date` for any (also negative) epoch value. -/
def utcSecondsOfDay (secs : ℤ) : ℕ := (secs.emod 86400).toNat

/-- The 24-hour `HH:MM` rendering of an epoch-second instant pinned to the
UTC timezone, as `toLocaleTimeString` produces with the es-ES locale,
two-digit hour and minute, 24-hour clock, and the timeZone pinned to UTC. -/
def utcHHMM (secs : ℤ) : String :=
  pad2 (utcSecondsOfDay secs / 3600) ++ ":" ++ pad2 (utcSecondsOfDay secs % 3600 / 60)

/-- `formatSunEvent(timestamp, timezoneOffset)`: the `!timestamp` guard is
JavaScript falsiness, so an absent timestamp and the timestamp `0` both give
the placeholder; otherwise `(timestamp + timezoneOffset)` epoch seconds are
rendered as a UTC `HH:MM` string. -/
def formatSunEvent (timestamp : Option ℤ) (timezoneOffset : ℤ) : String :=
  match timestamp with
  | none => "--"
  | some t =>
    if t = 0 then "--"
    else utcHHMM (t + timezoneOffset)

/-- Modelled from the spec: "converts (timestamp + offset) epoch seconds to
a 24-hour HH:MM string rendered as if in UTC".  Spec-side description of the
clock rendering, to be compared with the source-side `formatSunEvent`. -/
def specUtcClockHHMM (secs : ℤ) : String :=
  let dayRemainder := (secs.emod 86400).toNat
  pad2 (dayRemainder / 3600) ++ ":" ++ pad2 (dayRemainder % 3600 / 60)


/-- JavaScript `String.prototype.trim()`: strips leading and trailing
whitespace.  Modelled structurally over the character list so that it
evaluates inside the kernel. -/
def jsTrim (s : String) : String :=
  String.mk (((s.data.dropWhile Char.isWhitespace).reverse.dropWhile Char.isWhitespace).reverse)


/-- The `main` sub-object of a current-conditions or forecast entry payload
(every numeric field may be absent in the defensive reads of the source). -/
structure MainInfo where
  temp : Option ℚ
  feels_like : Option ℚ
  humidity : Option ℚ
  pressure : Option ℚ
  deriving DecidableEq, Repr

/-- The `wind` sub-object of a current-conditions payload. -/
structure WindInfo where
  speed : Option ℚ
  deriving DecidableEq, Repr

/-- The `clouds` sub-object of a current-conditions payload. -/
structure CloudsInfo where
  all : Option ℚ
  deriving DecidableEq, Repr

/-- The `sys` sub-object of a current-conditions payload. -/
structure SysInfo where
  sunrise : Option ℤ
  sunset : Option ℤ
  country : Option String
  deriving DecidableEq, Repr

/-- One element of the `weather` array of a current-conditions payload. -/
structure WeatherDesc where
  description : String
  icon : Option String
  deriving DecidableEq, Repr

/-- The current-conditions JSON payload, with the fields the component
reads; each is optional because the source reads them defensively. -/
structure CurrentPayload where
  name : Option String
  main : Option MainInfo
  wind : Option WindInfo
  visibility : Option ℚ
  clouds : Option CloudsInfo
  sys : Option SysInfo
  timezone : Option ℤ
  weather : List WeatherDesc
  deriving DecidableEq, Repr

/-- One raw entry of the forecast series (`forecast.list[i]`). -/
structure ForecastEntry where
  dt : ℤ
  main : Option MainInfo
  pop : Option ℚ
  deriving DecidableEq, Repr

/-- The `city` sub-object of a forecast payload. -/
structure CityInfo where
  timezone : Option ℤ
  deriving DecidableEq, Repr

/-- The forecast JSON payload: the raw series plus originating-city info. -/
structure ForecastPayload where
  list : Option (List ForecastEntry)
  city : Option CityInfo
  deriving DecidableEq, Repr

/-- A derived forecast point as produced by `buildForecastPoints`. -/
structure ForecastPoint where
  label : String
  temperature : Option ℚ
  humidity : Option ℚ
  precipitation : ℤ
  deriving DecidableEq, Repr

/-- Spanish short weekday names as produced by `Intl.DateTimeFormat` with
the es-ES locale and the short weekday option; index 0 is Sunday. -/
def esWeekdayAbbrev : ℕ → String
  | 0 => "dom"
  | 1 => "lun"
  | 2 => "mar"
  | 3 => "mié"
  | 4 => "jue"
  | 5 => "vie"
  | _ => "sáb"

/-- The `Intl.DateTimeFormat` rendering of an epoch-second instant with the
es-ES locale, short weekday, two-digit hour and minute, 24-hour clock, and
the timeZone pinned to UTC: short weekday, a comma, and the time.
Epoch day zero (1970-01-01) was a Thursday, weekday index 4. -/
def intlWeekdayTimeEs (secs : ℤ) : String :=
  esWeekdayAbbrev (((secs.fdiv 86400 + 4).emod 7).toNat) ++ ", " ++ utcHHMM secs

/-- The body of the `.map` in `buildForecastPoints`: one raw entry plus the
series timezone offset become one display-ready point. -/
def mkForecastPoint (timezoneOffset : ℤ) (item : ForecastEntry) : ForecastPoint :=
  { label := intlWeekdayTimeEs (item.dt + timezoneOffset)
    temperature := item.main.bind MainInfo.temp
    humidity := item.main.bind MainInfo.humidity
    precipitation := jsRound ((item.pop.getD 0) * 100) }

/-- `buildForecastPoints(forecast)`: the `!forecast?.list?.length` guard
yields `[]` when the payload, its list, or the length of the list is falsy;
otherwise the first 8 entries are mapped through `mkForecastPoint` with the
`forecast.city?.timezone ?? 0` offset. -/
def buildForecastPoints (forecast : Option ForecastPayload) : List ForecastPoint :=
  match forecast with
  | none => []
  | some fc =>
    match fc.list with
    | none => []
    | some l =>
      if l.length = 0 then []
      else
        let timezoneOffset := (fc.city.bind CityInfo.timezone).getD 0
        (l.take 8).map (mkForecastPoint timezoneOffset)

deriving instance DecidableEq for Except

/-- The outcome of one `fetch` call: the promise may reject (network
failure), or resolve to a response with an `ok` flag whose `.json()` body
either parses to a payload or rejects with a parse error. -/
inductive ReqOutcome (α : Type) where
  | netFail (message : String)
  | resolved (ok : Bool) (body : Except String α)
  deriving DecidableEq, Repr

/-- The session state owned by the component: the React `useState` cells
that `fetchWeather` reads and writes.  `weatherData` packages the current
conditions and the forecast series together, exactly as the single
`setWeatherData({ current, forecast })` call does. -/
structure SessionState where
  city : String
  units : UnitSystem
  weatherData : Option (CurrentPayload × ForecastPayload)
  loading : Bool
  error : Option String
  lastUpdated : Option ℕ
  deriving DecidableEq, Repr

/-- The current conditions stored in the session, the field the spec calls
`currentConditions`. -/
def SessionState.currentConditions (s : SessionState) : Option CurrentPayload :=
  s.weatherData.map Prod.fst

/-- The forecast series stored in the session, the field the spec calls
`forecastSeries`. -/
def SessionState.forecastSeries (s : SessionState) : Option ForecastPayload :=
  s.weatherData.map Prod.snd

/-- The environment one `fetchWeather` cycle runs in: the configured API
key, the outcome of each of the two requests, and the clock value taken by
`new Date()` on success.  When both fetch promises reject, the original
`Promise.all` rejects with whichever rejection settles first; this model
determinizes that order to the current-conditions request first. -/
structure FetchEnv where
  apiKey : Option String
  currentReq : ReqOutcome CurrentPayload
  forecastReq : ReqOutcome ForecastPayload
  now : ℕ
  deriving DecidableEq, Repr

/-- Error message set when the API credential is falsy. -/
def missingApiKeyMessage : String :=
  "Falta la clave de API de OpenWeather. Agrega VITE_OPENWEATHER_API_KEY a un archivo .env.local en la raíz del proyecto."

/-- Error message set when the submitted city is empty after trimming. -/
def invalidCityMessage : String :=
  "Ingresa una ciudad válida para continuar."

/-- Error thrown when the current-conditions response is not ok. -/
def currentFailMessage : String :=
  "No encontramos datos para esa ubicación."

/-- Error thrown when the forecast response is not ok. -/
def forecastFailMessage : String :=
  "Ocurrió un problema al obtener el pronóstico extendido."

/-- JavaScript falsiness of the `apiKey` string read from the environment:
`!apiKey` holds when the variable is absent or the empty string. -/
def apiKeyFalsy : Option String → Bool
  | none => true
  | some k => k = ""

/-- One of the two HTTP requests issued by a cycle, with the query
parameters built by `new URLSearchParams`. -/
structure ApiRequest where
  endpoint : String
  q : String
  units : UnitSystem
  appid : String
  lang : String
  deriving DecidableEq, Repr

/-- The `catch` branch followed by `finally`: clear the stored weather
data, store the thrown message, stop loading. -/
def failedState (s : SessionState) (message : String) : SessionState :=
  { s with weatherData := none, error := some message, loading := false }

/-- The body of the `try` block after `setLoading(true); setError(null)`:
await both fetches (a rejection propagates to `catch`), check `ok` of the
current then of the forecast response (a failed check throws the
corresponding message), await both `.json()` bodies (a rejection propagates
to `catch`), then commit the payloads and stamp `lastUpdated`.  The
`finally` clause folds into every branch as `loading := false`. -/
def settleCycle (env : FetchEnv) (s : SessionState) : SessionState :=
  match env.currentReq, env.forecastReq with
  | .netFail m, _ => failedState s m
  | .resolved _ _, .netFail m => failedState s m
  | .resolved cok cbody, .resolved fok fbody =>
    if cok = false then failedState s currentFailMessage
    else if fok = false then failedState s forecastFailMessage
    else
      match cbody, fbody with
      | .error m, _ => failedState s m
      | .ok _, .error m => failedState s m
      | .ok current, .ok forecast =>
        { s with weatherData := some (current, forecast)
                 lastUpdated := some env.now
                 loading := false }

/-- `fetchWeather(overrideCity, overrideUnits)` as a state transformer.
The two precondition guards return early, mutating only `error`; otherwise
the cycle sets `loading := true`, clears `error`, issues the two requests
(returned alongside the state so that "no network call" is checkable), and
settles per `settleCycle`. -/
def fetchWeather (env : FetchEnv) (overrideCity : String) (overrideUnits : UnitSystem)
    (s : SessionState) : SessionState × List ApiRequest :=
  match env.apiKey with
  | none => ({ s with error := some missingApiKeyMessage }, [])
  | some key =>
    if key = "" then ({ s with error := some missingApiKeyMessage }, [])
    else
      if jsTrim overrideCity = "" then ({ s with error := some invalidCityMessage }, [])
      else
        let issued := { s with loading := true, error := none }
        (settleCycle env issued,
          [{ endpoint := "weather", q := jsTrim overrideCity, units := overrideUnits,
             appid := key, lang := "es" },
           { endpoint := "forecast", q := jsTrim overrideCity, units := overrideUnits,
             appid := key, lang := "es" }])

/-- Decidable full-success test for a cycle: preconditions pass and both
requests resolve ok with parsable bodies. -/
def reqSuccess {α : Type} : ReqOutcome α → Bool
  | .resolved true (.ok _) => true
  | _ => false

/-- A cycle is fully successful when the key is configured, the trimmed
city is non-empty, and both requests succeed. -/
def cycleFullSuccess (env : FetchEnv) (overrideCity : String) : Bool :=
  !apiKeyFalsy env.apiKey && !(jsTrim overrideCity == "") &&
    reqSuccess env.currentReq && reqSuccess env.forecastReq

/-- The preconditions of a cycle pass when the key is configured and the
trimmed city is non-empty. -/
def preconditionsPass (env : FetchEnv) (overrideCity : String) : Bool :=
  !apiKeyFalsy env.apiKey && !(jsTrim overrideCity == "")

/-- A current-conditions payload with every optional field absent. -/
def emptyCurrent : CurrentPayload :=
  { name := none, main := none, wind := none, visibility := none,
    clouds := none, sys := none, timezone := none, weather := [] }

/-- A forecast payload with every optional field absent. -/
def emptyForecastPayload : ForecastPayload :=
  { list := none, city := none }

/-- A current-conditions payload carrying only a location name. -/
def namedCurrent (n : String) : CurrentPayload :=
  { emptyCurrent with name := some n }

/-- The idle session state: default city, metric units, nothing fetched. -/
def idleState : SessionState :=
  { city := "Madrid", units := .metric, weatherData := none,
    loading := false, error := none, lastUpdated := none }

/-- A session state holding previously fetched weather data. -/
def stateWithData : SessionState :=
  { idleState with weatherData := some (namedCurrent ("Madrid"), emptyForecastPayload) }

/-- An environment with no API credential configured. -/
def noKeyEnv : FetchEnv :=
  { apiKey := none, currentReq := .resolved true (.ok emptyCurrent),
    forecastReq := .resolved true (.ok emptyForecastPayload), now := 0 }

/-- An environment where both requests succeed. -/
def okEnv : FetchEnv :=
  { apiKey := some "key", currentReq := .resolved true (.ok (namedCurrent ("Madrid"))),
    forecastReq := .resolved true (.ok emptyForecastPayload), now := 42 }

/-- An environment where the current-conditions response is not ok. -/
def currentFailEnv : FetchEnv :=
  { okEnv with currentReq := .resolved false (.ok emptyCurrent) }

/-- An environment where only the forecast response is not ok. -/
def forecastFailEnv : FetchEnv :=
  { okEnv with forecastReq := .resolved false (.ok emptyForecastPayload) }

/-- A forecast entry with no numeric data and no precipitation field. -/
def sampleEntry : ForecastEntry :=
  { dt := 0, main := none, pop := none }

/-- A raw forecast payload with ten identical entries. -/
def sampleFc : ForecastPayload :=
  { list := some (List.replicate 10 sampleEntry), city := none }

/-- Cycle-A success payload for the race scenario. -/
def raceCurrentA : CurrentPayload := namedCurrent ("Paris")

/-- Cycle-B success payload for the race scenario. -/
def raceCurrentB : CurrentPayload := namedCurrent ("Bogota")

/-- Environment of race cycle A: success with the cycle-A payload. -/
def raceEnvA : FetchEnv :=
  { apiKey := some "key", currentReq := .resolved true (.ok raceCurrentA),
    forecastReq := .resolved true (.ok emptyForecastPayload), now := 1 }

/-- Environment of race cycle B: success with the cycle-B payload. -/
def raceEnvB : FetchEnv :=
  { apiKey := some "key", currentReq := .resolved true (.ok raceCurrentB),
    forecastReq := .resolved true (.ok emptyForecastPayload), now := 2 }

/-- A falsy API key makes `fetchWeather` return early with the credential
message, mutating only `error`. -/
theorem fetchWeather_missingKey (env : FetchEnv) (c : String) (u : UnitSystem)
    (s : SessionState) (h : apiKeyFalsy env.apiKey = true) :
    fetchWeather env c u s = ({ s with error := some missingApiKeyMessage }, []) := by
  rcases henv : env.apiKey with _ | key
  · simp [fetchWeather, henv]
  · have hk : key = "" := by simpa [apiKeyFalsy, henv] using h
    simp [fetchWeather, henv, hk]

/-- An empty-after-trim city makes `fetchWeather` return early with the
invalid-city message, mutating only `error`. -/
theorem fetchWeather_emptyCity (env : FetchEnv) (c : String) (u : UnitSystem)
    (s : SessionState) (hk : apiKeyFalsy env.apiKey = false) (hc : jsTrim c = "") :
    fetchWeather env c u s = ({ s with error := some invalidCityMessage }, []) := by
  rcases henv : env.apiKey with _ | key
  · simp [apiKeyFalsy, henv] at hk
  · have hkey : ¬ key = "" := by simpa [apiKeyFalsy, henv] using hk
    simp [fetchWeather, henv, hkey, hc]

/-- When both preconditions pass, the cycle settles from the issued state. -/
theorem fetchWeather_run (env : FetchEnv) (c : String) (u : UnitSystem)
    (s : SessionState) (hk : apiKeyFalsy env.apiKey = false) (hc : ¬ jsTrim c = "") :
    (fetchWeather env c u s).1 = settleCycle env { s with loading := true, error := none } := by
  rcases henv : env.apiKey with _ | key
  · simp [apiKeyFalsy, henv] at hk
  · have hkey : ¬ key = "" := by simpa [apiKeyFalsy, henv] using hk
    simp [fetchWeather, henv, hkey, hc]

/-- When both preconditions pass, exactly the two parameterized requests
are issued. -/
theorem fetchWeather_requests (env : FetchEnv) (c : String) (u : UnitSystem)
    (s : SessionState) (key : String) (henv : env.apiKey = some key)
    (hkey : ¬ key = "") (hc : ¬ jsTrim c = "") :
    (fetchWeather env c u s).2 =
      [{ endpoint := "weather", q := jsTrim c, units := u, appid := key, lang := "es" },
       { endpoint := "forecast", q := jsTrim c, units := u, appid := key, lang := "es" }] := by
  simp [fetchWeather, henv, hkey, hc]

/-- Every branch of the settle phase (success, bad status, network or parse
failure) ends with `loading = false`, via the `finally` clause. -/
theorem settleCycle_loading (env : FetchEnv) (s : SessionState) :
    (settleCycle env s).loading = false := by
  rcases hcr : env.currentReq with m1 | ⟨cok, cb⟩
  · simp [settleCycle, hcr, failedState]
  · rcases hfr : env.forecastReq with m2 | ⟨fok, fb⟩
    · simp [settleCycle, hcr, hfr, failedState]
    · cases cok <;> cases fok <;> rcases cb with m3 | cur <;> rcases fb with m4 | fo <;>
        simp [settleCycle, hcr, hfr, failedState]

/-- When both requests resolve ok with parsable bodies, the settle phase
commits the payloads and stamps the clock. -/
theorem settleCycle_success (env : FetchEnv) (s : SessionState) (cur : CurrentPayload)
    (fo : ForecastPayload) (hcr : env.currentReq = .resolved true (.ok cur))
    (hfr : env.forecastReq = .resolved true (.ok fo)) :
    settleCycle env s = { s with weatherData := some (cur, fo),
                                 lastUpdated := some env.now, loading := false } := by
  simp [settleCycle, hcr, hfr]

/-- When either request is not a parsed success, the settle phase takes the
catch branch with some thrown message. -/
theorem settleCycle_failed (env : FetchEnv) (s : SessionState)
    (h : ¬ (reqSuccess env.currentReq = true ∧ reqSuccess env.forecastReq = true)) :
    ∃ m, settleCycle env s = failedState s m := by
  rcases hcr : env.currentReq with m1 | ⟨cok, cb⟩
  · exact ⟨m1, by simp [settleCycle, hcr]⟩
  · rcases hfr : env.forecastReq with m2 | ⟨fok, fb⟩
    · exact ⟨m2, by simp [settleCycle, hcr, hfr]⟩
    · cases cok
      · exact ⟨currentFailMessage, by simp [settleCycle, hcr, hfr]⟩
      · cases fok
        · exact ⟨forecastFailMessage, by simp [settleCycle, hcr, hfr]⟩
        · rcases cb with m3 | cur
          · exact ⟨m3, by simp [settleCycle, hcr, hfr]⟩
          · rcases fb with m4 | fo
            · exact ⟨m4, by simp [settleCycle, hcr, hfr]⟩
            · exact absurd ⟨by simp [reqSuccess, hcr], by simp [reqSuccess, hfr]⟩ h

/-- If the settle phase started with no error and ended with one, the
stored weather data was cleared. -/
theorem settleCycle_error_clears (env : FetchEnv) (s : SessionState) (hs : s.error = none)
    (m : String) (he : (settleCycle env s).error = some m) :
    (settleCycle env s).weatherData = none := by
  rcases hcr : env.currentReq with m1 | ⟨cok, cb⟩
  · simp [settleCycle, hcr, failedState]
  · rcases hfr : env.forecastReq with m2 | ⟨fok, fb⟩
    · simp [settleCycle, hcr, hfr, failedState]
    · cases cok
      · simp [settleCycle, hcr, hfr, failedState]
      · cases fok
        · simp [settleCycle, hcr, hfr, failedState]
        · rcases cb with m3 | cur
          · simp [settleCycle, hcr, hfr, failedState]
          · rcases fb with m4 | fo
            · simp [settleCycle, hcr, hfr, failedState]
            · simp [settleCycle, hcr, hfr, hs] at he

/-- A success characterization of `reqSuccess`. -/
theorem reqSuccess_iff {α : Type} (r : ReqOutcome α) :
    reqSuccess r = true ↔ ∃ a, r = .resolved true (.ok a) := by
  cases r with
  | netFail m => simp [reqSuccess]
  | resolved ok body => cases ok <;> rcases body with m | a <;> simp [reqSuccess]

/-- Half-up rounding of a nonnegative rational is nonnegative. -/
theorem jsRound_nonneg {q : ℚ} (h : 0 ≤ q) : 0 ≤ jsRound q :=
  Int.le_floor.mpr (by push_cast; linarith)

/-- Half-up rounding of a rational at most 100 is at most 100. -/
theorem jsRound_le_100 {q : ℚ} (h : q ≤ 100) : jsRound q ≤ 100 := by
  have h2 : jsRound q < 101 := by
    rw [jsRound]
    exact Int.floor_lt.mpr (by push_cast; linarith)
  omega

/-- C5: every formatter is total over the embedded inputs: an absent or
non-numeric value yields the placeholder, and a numeric value follows the
stated precision rule — `formatTemperature` rounds to the nearest integer
and appends the unit glyph (in particular 21.6 metric gives "22°C"),
`formatWindSpeed` renders one decimal plus the per-system unit label, and
`formatVisibility` renders value/1000 kilometers with one decimal. -/
theorem C5_formatters_total :
    (∀ u, formatTemperature none u = "--") ∧
    (∀ u, formatWindSpeed none u = "--") ∧
    formatVisibility none = "--" ∧
    (∀ v u, formatTemperature (some v) u = toString (jsRound v) ++ temperatureUnit u) ∧
    formatTemperature (some (108/5)) .metric = "22°C" ∧
    (∀ v u, formatWindSpeed (some v) u = jsToFixed1 v ++ " " ++ windUnit u) ∧
    formatWindSpeed (some (7/2)) .metric = "3.5 m/s" ∧
    (∀ v, formatVisibility (some v) = jsToFixed1 (v / 1000) ++ " km") ∧
    formatVisibility (some 8500) = "8.5 km" := by
  refine ⟨fun u => rfl, fun u => rfl, rfl, fun v u => rfl, ?_, fun v u => rfl, ?_,
    fun v => rfl, ?_⟩
  · have h : jsRound (108/5 : ℚ) = 22 := by norm_num [jsRound]
    simp only [formatTemperature, h]
    rfl
  · have h : jsRound ((7/2 : ℚ) * 10) = 35 := by norm_num [jsRound]
    simp only [formatWindSpeed]
    rw [jsToFixed1, if_neg (by norm_num : ¬ (7/2 : ℚ) < 0), h]
    rfl
  · have h : jsRound ((8500 : ℚ) / 1000 * 10) = 85 := by norm_num [jsRound]
    simp only [formatVisibility]
    rw [jsToFixed1, if_neg (by norm_num : ¬ (8500 : ℚ) / 1000 < 0), h]
    rfl

/-- C6 counterexample: the concrete instance named by the claim is wrong:
`formatSunEvent(1700000000, 7200)` renders epoch second 1700007200, and the
UTC clock string of 1700002200 differs from it ("00:13" versus "22:50"). -/
theorem C6_counterexample :
    formatSunEvent (some 1700000000) 7200 ≠ specUtcClockHHMM 1700002200 := by decide

/-- C6 (amended): `formatSunEvent` yields the placeholder on a falsy
timestamp (absent or zero) and otherwise the 24-hour UTC HH:MM clock string
of (timestamp + offset) epoch seconds; in particular
`formatSunEvent(1700000000, 7200)` equals the UTC clock rendering of
1700007200 = 1700000000 + 7200 (the claim wrote 1700002200). -/
theorem C6_formatSunEvent_utc :
    (∀ off, formatSunEvent none off = "--") ∧
    (∀ off, formatSunEvent (some 0) off = "--") ∧
    (∀ t off, ¬ t = 0 → formatSunEvent (some t) off = specUtcClockHHMM (t + off)) ∧
    formatSunEvent (some 1700000000) 7200 = specUtcClockHHMM (1700000000 + 7200) := by
  refine ⟨fun off => rfl, fun off => rfl, fun t off h => ?_, rfl⟩
  simp only [formatSunEvent, if_neg h]
  rfl

/-- C6 witness: the general clause applied at timestamp 1700000000 and
offset 7200. -/
theorem C6_witness :
    ¬ (1700000000 : ℤ) = 0 ∧
    formatSunEvent (some 1700000000) 7200 = specUtcClockHHMM (1700000000 + 7200) :=
  ⟨by decide, C6_formatSunEvent_utc.2.2.1 1700000000 7200 (by decide)⟩

/-- C2: a falsy API credential or an empty-after-trim city sets a specific
distinct error message and issues no request; otherwise exactly the two
identically parameterized requests are issued. -/
theorem C2_preconditions_gate_requests (env : FetchEnv) (c : String) (u : UnitSystem)
    (s : SessionState) :
    (apiKeyFalsy env.apiKey = true →
      (fetchWeather env c u s).1.error = some missingApiKeyMessage ∧
        (fetchWeather env c u s).2 = []) ∧
    (apiKeyFalsy env.apiKey = false → jsTrim c = "" →
      (fetchWeather env c u s).1.error = some invalidCityMessage ∧
        (fetchWeather env c u s).2 = []) ∧
    missingApiKeyMessage ≠ invalidCityMessage ∧
    (∀ key, env.apiKey = some key → ¬ key = "" → ¬ jsTrim c = "" →
      (fetchWeather env c u s).2 =
        [{ endpoint := "weather", q := jsTrim c, units := u, appid := key, lang := "es" },
         { endpoint := "forecast", q := jsTrim c, units := u, appid := key, lang := "es" }]) := by
  refine ⟨fun h => ?_, fun hk hc => ?_, by decide,
    fun key henv hkey hc => fetchWeather_requests env c u s key henv hkey hc⟩
  · rw [fetchWeather_missingKey env c u s h]
    exact ⟨rfl, rfl⟩
  · rw [fetchWeather_emptyCity env c u s hk hc]
    exact ⟨rfl, rfl⟩

/-- C2 witness: the three clauses exercised at concrete environments. -/
theorem C2_witness :
    apiKeyFalsy noKeyEnv.apiKey = true ∧
    ((fetchWeather noKeyEnv ("Madrid") .metric idleState).1.error = some missingApiKeyMessage ∧
      (fetchWeather noKeyEnv ("Madrid") .metric idleState).2 = []) ∧
    (apiKeyFalsy okEnv.apiKey = false ∧ jsTrim ("   ") = "") ∧
    ((fetchWeather okEnv ("   ") .metric idleState).1.error = some invalidCityMessage ∧
      (fetchWeather okEnv ("   ") .metric idleState).2 = []) ∧
    (fetchWeather okEnv ("Madrid") .metric idleState).2 =
      [{ endpoint := "weather", q := jsTrim ("Madrid"), units := .metric,
         appid := "key", lang := "es" },
       { endpoint := "forecast", q := jsTrim ("Madrid"), units := .metric,
         appid := "key", lang := "es" }] :=
  ⟨by decide,
   (C2_preconditions_gate_requests noKeyEnv ("Madrid") .metric idleState).1 (by decide),
   ⟨by decide, by decide⟩,
   (C2_preconditions_gate_requests okEnv ("   ") .metric idleState).2.1 (by decide) (by decide),
   (C2_preconditions_gate_requests okEnv ("Madrid") .metric idleState).2.2.2
     "key" rfl (by decide) (by decide)⟩

/-- C10: a precondition-violating call mutates only `error`: the stored
weather data, the loading flag, and the last-update stamp all keep their
prior values. -/
theorem C10_precondition_frame (env : FetchEnv) (c : String) (u : UnitSystem)
    (s : SessionState) :
    (apiKeyFalsy env.apiKey = true →
      (fetchWeather env c u s).1 = { s with error := some missingApiKeyMessage }) ∧
    (apiKeyFalsy env.apiKey = false → jsTrim c = "" →
      (fetchWeather env c u s).1 = { s with error := some invalidCityMessage }) :=
  ⟨fun h => by rw [fetchWeather_missingKey env c u s h],
   fun hk hc => by rw [fetchWeather_emptyCity env c u s hk hc]⟩

/-- C10 witness: a missing credential with previously fetched data leaves
everything but `error` unchanged — in particular the data stays. -/
theorem C10_witness :
    apiKeyFalsy noKeyEnv.apiKey = true ∧
    (fetchWeather noKeyEnv ("Madrid") .metric stateWithData).1 =
      { stateWithData with error := some missingApiKeyMessage } :=
  ⟨by decide, (C10_precondition_frame noKeyEnv ("Madrid") .metric stateWithData).1 (by decide)⟩

/-- C1 counterexample: a precondition-violating cycle (missing credential)
run over a state holding previously fetched data settles with both a
non-null error and non-null stored current conditions — the early returns
set `error` without clearing `weatherData`. -/
theorem C1_counterexample :
    ((fetchWeather noKeyEnv ("Madrid") .metric stateWithData).1.error).isSome = true ∧
    ((fetchWeather noKeyEnv ("Madrid") .metric stateWithData).1.currentConditions).isSome
      = true :=
  ⟨rfl, rfl⟩

/-- C1 (amended): restricted to cycles that pass the preconditions, a
settled cycle never leaves `error` and the stored weather data both
non-null: any request failure clears `currentConditions` and
`forecastSeries` to null.  Precondition failures set `error` but leave the
previously stored data in place. -/
theorem C1_error_excludes_data (env : FetchEnv) (c : String) (u : UnitSystem)
    (s : SessionState) (hk : apiKeyFalsy env.apiKey = false) (hc : ¬ jsTrim c = "")
    (m : String) (he : (fetchWeather env c u s).1.error = some m) :
    (fetchWeather env c u s).1.currentConditions = none ∧
    (fetchWeather env c u s).1.forecastSeries = none := by
  rw [fetchWeather_run env c u s hk hc] at he ⊢
  have hclear := settleCycle_error_clears env { s with loading := true, error := none } rfl m he
  simp [SessionState.currentConditions, SessionState.forecastSeries, hclear]

/-- C1 witness: a failing current-conditions request over a state with
prior data settles with the error set and the data cleared. -/
theorem C1_witness :
    apiKeyFalsy currentFailEnv.apiKey = false ∧ ¬ jsTrim ("Madrid") = "" ∧
    (fetchWeather currentFailEnv ("Madrid") .metric stateWithData).1.error
      = some currentFailMessage ∧
    (fetchWeather currentFailEnv ("Madrid") .metric stateWithData).1.currentConditions
      = none ∧
    (fetchWeather currentFailEnv ("Madrid") .metric stateWithData).1.forecastSeries
      = none := by
  have h := C1_error_excludes_data currentFailEnv ("Madrid") .metric stateWithData
    (by decide) (by decide) currentFailMessage rfl
  exact ⟨by decide, by decide, rfl, h.1, h.2⟩

/-- C7 counterexample: a precondition-violating call does not touch the
loading flag, so a cycle settling through the missing-credential early
return from a state with `loading = true` leaves it true. -/
theorem C7_counterexample :
    (fetchWeather noKeyEnv ("Madrid") .metric { idleState with loading := true }).1.loading
      = true := rfl

/-- C7 (amended): in every outcome of a cycle that passes the preconditions
(success, request failure, network failure, parse failure) the loading flag
is false afterwards; a precondition-violating call leaves the flag at its
prior value — false whenever the controller was not mid-flight. -/
theorem C7_loading_cleared (env : FetchEnv) (c : String) (u : UnitSystem)
    (s : SessionState) :
    (preconditionsPass env c = true → (fetchWeather env c u s).1.loading = false) ∧
    (preconditionsPass env c = false → (fetchWeather env c u s).1.loading = s.loading) := by
  constructor
  · intro h
    rw [preconditionsPass, Bool.and_eq_true, Bool.not_eq_true', Bool.not_eq_true',
      beq_eq_false_iff_ne] at h
    rw [fetchWeather_run env c u s h.1 h.2]
    exact settleCycle_loading env _
  · intro h
    by_cases hk : apiKeyFalsy env.apiKey = true
    · rw [fetchWeather_missingKey env c u s hk]
    · have hk2 : apiKeyFalsy env.apiKey = false := by
        rwa [Bool.not_eq_true] at hk
      have hc : jsTrim c = "" := by
        rw [preconditionsPass, hk2, Bool.not_false, Bool.true_and, Bool.not_eq_false',
          beq_iff_eq] at h
        exact h
      rw [fetchWeather_emptyCity env c u s hk2 hc]

/-- C7 witness: the two clauses exercised on a successful cycle and on a
missing-credential cycle, both from the idle state. -/
theorem C7_witness :
    preconditionsPass okEnv ("Madrid") = true ∧
    (fetchWeather okEnv ("Madrid") .metric idleState).1.loading = false ∧
    preconditionsPass noKeyEnv ("Madrid") = false ∧
    (fetchWeather noKeyEnv ("Madrid") .metric idleState).1.loading = idleState.loading :=
  ⟨by decide, (C7_loading_cleared okEnv ("Madrid") .metric idleState).1 (by decide),
   by decide, (C7_loading_cleared noKeyEnv ("Madrid") .metric idleState).2 (by decide)⟩

/-- C3: the last-update stamp is written (to the cycle clock) exactly on a
fully successful cycle; any failure — bad status, network or parse failure,
or precondition violation — leaves it at its prior value. -/
theorem C3_lastUpdated_iff_success (env : FetchEnv) (c : String) (u : UnitSystem)
    (s : SessionState) :
    (cycleFullSuccess env c = true →
      (fetchWeather env c u s).1.lastUpdated = some env.now) ∧
    (cycleFullSuccess env c = false →
      (fetchWeather env c u s).1.lastUpdated = s.lastUpdated) := by
  constructor
  · intro h
    rw [cycleFullSuccess, Bool.and_eq_true, Bool.and_eq_true, Bool.and_eq_true,
      Bool.not_eq_true', Bool.not_eq_true', beq_eq_false_iff_ne] at h
    obtain ⟨⟨⟨hk, hc⟩, hcur⟩, hfor⟩ := h
    obtain ⟨cur, hcr⟩ := (reqSuccess_iff env.currentReq).mp hcur
    obtain ⟨fo, hfr⟩ := (reqSuccess_iff env.forecastReq).mp hfor
    rw [fetchWeather_run env c u s hk hc,
      settleCycle_success env _ cur fo hcr hfr]
  · intro h
    by_cases hk : apiKeyFalsy env.apiKey = true
    · rw [fetchWeather_missingKey env c u s hk]
    · have hk2 : apiKeyFalsy env.apiKey = false := by rwa [Bool.not_eq_true] at hk
      by_cases hc : jsTrim c = ""
      · rw [fetchWeather_emptyCity env c u s hk2 hc]
      · rw [fetchWeather_run env c u s hk2 hc]
        have hreq : ¬ (reqSuccess env.currentReq = true ∧ reqSuccess env.forecastReq = true) := by
          intro hboth
          have htrue : cycleFullSuccess env c = true := by
            simp [cycleFullSuccess, hk2, hboth.1, hboth.2, hc]
          rw [htrue] at h
          exact absurd h (by decide)
        obtain ⟨m, hm⟩ := settleCycle_failed env { s with loading := true, error := none } hreq
        rw [hm]
        simp [failedState]

/-- C3 witness: the stamp is written on a fully successful cycle and kept
on a forecast-failure cycle. -/
theorem C3_witness :
    cycleFullSuccess okEnv ("Madrid") = true ∧
    (fetchWeather okEnv ("Madrid") .metric idleState).1.lastUpdated = some okEnv.now ∧
    cycleFullSuccess forecastFailEnv ("Madrid") = false ∧
    (fetchWeather forecastFailEnv ("Madrid") .metric stateWithData).1.lastUpdated
      = stateWithData.lastUpdated :=
  ⟨by decide, (C3_lastUpdated_iff_success okEnv ("Madrid") .metric idleState).1 (by decide),
   by decide,
   (C3_lastUpdated_iff_success forecastFailEnv ("Madrid") .metric stateWithData).2 (by decide)⟩

/-- C8: when both fetches resolve, a bad status identifies the failing
call: a non-ok current-conditions response sets the current-conditions
message, an ok current with a non-ok forecast sets the forecast message,
and the two messages are distinct. -/
theorem C8_distinct_failure_messages (env : FetchEnv) (c : String) (u : UnitSystem)
    (s : SessionState) (hk : apiKeyFalsy env.apiKey = false) (hc : ¬ jsTrim c = "")
    (cok fok : Bool) (cb : Except String CurrentPayload) (fb : Except String ForecastPayload)
    (hcr : env.currentReq = .resolved cok cb) (hfr : env.forecastReq = .resolved fok fb) :
    (cok = false → (fetchWeather env c u s).1.error = some currentFailMessage) ∧
    (cok = true → fok = false →
      (fetchWeather env c u s).1.error = some forecastFailMessage) ∧
    currentFailMessage ≠ forecastFailMessage := by
  rw [fetchWeather_run env c u s hk hc]
  refine ⟨fun h1 => ?_, fun h1 h2 => ?_, by decide⟩
  · subst h1
    simp [settleCycle, hcr, hfr, failedState]
  · subst h1; subst h2
    simp [settleCycle, hcr, hfr, failedState]

/-- C8 witness: the two bad-status cases at concrete environments. -/
theorem C8_witness :
    (fetchWeather currentFailEnv ("Madrid") .metric idleState).1.error
      = some currentFailMessage ∧
    (fetchWeather forecastFailEnv ("Madrid") .metric idleState).1.error
      = some forecastFailMessage ∧
    currentFailMessage ≠ forecastFailMessage :=
  ⟨(C8_distinct_failure_messages currentFailEnv ("Madrid") .metric idleState
      (by decide) (by decide) false true (.ok emptyCurrent) (.ok emptyForecastPayload)
      rfl rfl).1 rfl,
   (C8_distinct_failure_messages forecastFailEnv ("Madrid") .metric idleState
      (by decide) (by decide) true false (.ok (namedCurrent ("Madrid")))
      (.ok emptyForecastPayload) rfl rfl).2.1 rfl rfl,
   by decide⟩

/-- C9: the source has no generation guard, so interleaved cycles commit
last-settler-wins.  Timeline: cycle A is issued (loading set, error
cleared), cycle B is issued and settles first (its `fetchWeather` runs to
completion), then the settlement of A is applied.  The final stored data is
the payload of A, not of B, though B was issued later. -/
theorem C9_race_last_settler_wins :
    (settleCycle raceEnvA
        (fetchWeather raceEnvB ("Madrid") .metric
          { idleState with loading := true, error := none }).1).weatherData
      = some (raceCurrentA, emptyForecastPayload) ∧
    ((fetchWeather raceEnvB ("Madrid") .metric
        { idleState with loading := true, error := none }).1).weatherData
      = some (raceCurrentB, emptyForecastPayload) ∧
    raceCurrentA ≠ raceCurrentB :=
  ⟨rfl, rfl, by decide⟩

/-- C4: the forecast projector returns the empty sequence on an absent or
empty series; on a series of at least 8 entries it returns exactly the
first 8 in source order; every produced precipitation is the half-up
rounding of pop times 100 with pop defaulting to 0, so pops within [0,1]
give percentages within [0,100]. -/
theorem C4_forecast_projector :
    buildForecastPoints none = [] ∧
    (∀ cty, buildForecastPoints (some { list := none, city := cty }) = []) ∧
    (∀ cty, buildForecastPoints (some { list := some [], city := cty }) = []) ∧
    (∀ fc l, fc.list = some l → 8 ≤ l.length →
      buildForecastPoints (some fc) =
        (l.take 8).map (mkForecastPoint ((fc.city.bind CityInfo.timezone).getD 0)) ∧
      (buildForecastPoints (some fc)).length = 8) ∧
    (∀ tz item, (mkForecastPoint tz item).precipitation = jsRound ((item.pop.getD 0) * 100)) ∧
    (∀ fc p, p ∈ buildForecastPoints (some fc) →
      (∀ e pv, e ∈ fc.list.getD [] → e.pop = some pv → 0 ≤ pv ∧ pv ≤ 1) →
      0 ≤ p.precipitation ∧ p.precipitation ≤ 100) := by
  refine ⟨rfl, fun cty => rfl, fun cty => rfl, fun fc l hl hlen => ?_,
    fun tz item => rfl, fun fc p hp hb => ?_⟩
  · have hne : ¬ l.length = 0 := by omega
    have h1 : buildForecastPoints (some fc) =
        (l.take 8).map (mkForecastPoint ((fc.city.bind CityInfo.timezone).getD 0)) := by
      simp [buildForecastPoints, hl, hne]
    refine ⟨h1, ?_⟩
    rw [h1, List.length_map, List.length_take]
    omega
  · rcases hfc : fc.list with _ | l
    · simp [buildForecastPoints, hfc] at hp
    · by_cases hlen : l.length = 0
      · simp [buildForecastPoints, hfc, hlen] at hp
      · simp only [buildForecastPoints, hfc, hlen, if_false, List.mem_map] at hp
        obtain ⟨e, he, rfl⟩ := hp
        have heL : e ∈ l := List.take_subset 8 l he
        rcases hpop : e.pop with _ | pv
        · simp only [mkForecastPoint, hpop, Option.getD_none]
          exact ⟨jsRound_nonneg (by norm_num), jsRound_le_100 (by norm_num)⟩
        · obtain ⟨hpv0, hpv1⟩ := hb e pv (by simpa [hfc] using heL) hpop
          simp only [mkForecastPoint, hpop, Option.getD_some]
          have h0 : (0 : ℚ) ≤ pv * 100 := mul_nonneg hpv0 (by norm_num)
          have h100 : pv * 100 ≤ 100 := by
            have := mul_le_mul_of_nonneg_right hpv1 (by norm_num : (0 : ℚ) ≤ 100)
            simpa using this
          exact ⟨jsRound_nonneg h0, jsRound_le_100 h100⟩

/-- C4 witness: a ten-entry series with no precipitation fields maps to
exactly 8 points whose percentages are within bounds. -/
theorem C4_witness :
    sampleFc.list = some (List.replicate 10 sampleEntry) ∧
    8 ≤ (List.replicate 10 sampleEntry).length ∧
    (buildForecastPoints (some sampleFc)).length = 8 ∧
    0 ≤ (mkForecastPoint 0 sampleEntry).precipitation ∧
    (mkForecastPoint 0 sampleEntry).precipitation ≤ 100 := by
  have h4 := C4_forecast_projector.2.2.2.1 sampleFc (List.replicate 10 sampleEntry)
    rfl (by decide)
  have hmem : mkForecastPoint 0 sampleEntry ∈ buildForecastPoints (some sampleFc) := by
    rw [h4.1]
    exact List.mem_map_of_mem _ (by decide)
  have hb := C4_forecast_projector.2.2.2.2.2 sampleFc (mkForecastPoint 0 sampleEntry) hmem
    (fun e pv he hp => by
      have he2 : e = sampleEntry := List.eq_of_mem_replicate he
      rw [he2] at hp
      exact absurd hp (by simp [sampleEntry]))
  exact ⟨rfl, by decide, h4.2, hb.1, hb.2⟩
